import Mathlib

/-!
Verification development for the agentic-honeypot scam-detection service.
The Python modules signals.py, policy.py, agent.py, validator.py, memory.py
and main.py are shallowly embedded below; theorems settle the frozen claims
about them.  Python strings are modelled as Lean strings, Python lists and
sets as Lean lists (set iteration order is only observable in human-readable
reason texts, noted where relevant), and Python dicts as association lists.
-/

/-! ## String utilities mirroring Python primitives -/

-- Python: `needle in hay` (substring containment).
def containsSub (needle : List Char) : List Char → Bool
  | [] => needle.isEmpty
  | c :: rest => needle.isPrefixOf (c :: rest) || containsSub needle rest

def pyIn (needle hay : String) : Bool :=
  containsSub needle.toList hay.toList

-- Python: str.lower().  Only ASCII letters are cased in the texts that the
-- repository manipulates; Devanagari is unaffected by lower() in Python too.
def pyLower (s : String) : String :=
  String.mk (s.toList.map Char.toLower)

def pyUpper (s : String) : String :=
  String.mk (s.toList.map Char.toUpper)

-- Python: str.strip() (ASCII whitespace suffices for the repository texts).
def pyStrip (s : String) : String :=
  String.mk (((s.toList.dropWhile Char.isWhitespace).reverse.dropWhile
    Char.isWhitespace).reverse)

-- Python: str.split() — maximal runs of non-whitespace characters.
def splitWsAux : List Char → List Char → List (List Char)
  | acc, [] => if acc.isEmpty then [] else [acc.reverse]
  | acc, c :: rest =>
    if c.isWhitespace then
      if acc.isEmpty then splitWsAux [] rest
      else acc.reverse :: splitWsAux [] rest
    else splitWsAux (c :: acc) rest

def pySplitWs (s : String) : List String :=
  (splitWsAux [] s.toList).map String.mk

-- Characters matched by the regex class \w on the inputs in scope:
-- ASCII alphanumerics, underscore, and Devanagari letters/signs.
def isDevanagari (c : Char) : Bool :=
  0x900 ≤ c.toNat && c.toNat ≤ 0x97F

def isPyWordChar (c : Char) : Bool :=
  c.isAlphanum || c == Char.ofNat 0x5F || isDevanagari c

-- re \b: a word boundary sits between two positions exactly when the
-- adjacent characters disagree on word-char-ness (string edges count as
-- non-word positions).
def wbBoundary (a b : Option Char) : Bool :=
  match a, b with
  | none, none => false
  | none, some c => isPyWordChar c
  | some c, none => isPyWordChar c
  | some a, some b => isPyWordChar a != isPyWordChar b

-- re.search(rf"\b{re.escape(phrase)}\b", text): try every start position.
def wbFrom (p : List Char) : Option Char → List Char → Bool
  | _, [] => false
  | prev, c :: rest =>
    (p.isPrefixOf (c :: rest)
      && wbBoundary prev p.head?
      && wbBoundary p.getLast? ((List.drop p.length (c :: rest)).head?))
    || wbFrom p (some c) rest

def wbSearch (phrase text : String) : Bool :=
  wbFrom phrase.toList none text.toList

-- Tokenisation used by agent.py: re.findall(r"\b\w+\b", text) — on word
-- characters this is the list of maximal word-character runs.
def splitWordsAux : List Char → List Char → List (List Char)
  | acc, [] => if acc.isEmpty then [] else [acc.reverse]
  | acc, c :: rest =>
    if isPyWordChar c then splitWordsAux (c :: acc) rest
    else if acc.isEmpty then splitWordsAux [] rest
    else acc.reverse :: splitWordsAux [] rest

def pyWordTokens (s : String) : List String :=
  (splitWordsAux [] s.toList).map String.mk

/-! ## signals.py — lexicons (frozen tables, transcribed verbatim) -/

def IRREVERSIBLE_ACTIONS : List (String × List String) :=
  [("credential_sharing",
     ["otp", "one time password", "one-time password",
      "pin", "password", "cvv", "cvc", "card number",
      "login code", "verification code", "security code",
      "mpin", "atm pin", "debit card", "credit card"]),
   ("remote_access_installation",
     ["anydesk", "teamviewer", "remote desktop", "screen sharing",
      "screen share", "remote access", "remote control",
      "install app", "download app", "apk install"]),
   ("immediate_payment",
     ["upi collect", "pay now", "transfer money", "send money",
      "payment request", "gpay", "paytm", "phonepe",
      "bank transfer", "neft", "rtgs", "imps"]),
   ("qr_code_action",
     ["scan qr", "qr code", "scan this", "barcode"]),
   ("untraceable_payment",
     ["gift card", "google play card", "amazon card",
      "crypto", "bitcoin", "usdt", "wallet address"]),
   ("link_interaction",
     ["click link", "open link", "visit link",
      "verify account", "confirm identity"]),
   ("account_access_sharing",
     ["share screen", "give access",
      "safe account", "secure account"])]

def URGENCY_INDICATORS : List String :=
  ["urgent", "immediately", "right now", "asap",
   "today", "within minutes", "expire",
   "turant", "abhi", "jaldi", "der mat karo"]

def AUTHORITY_CLAIMS : List String :=
  ["bank", "rbi", "sbi", "hdfc", "icici",
   "police", "officer", "cyber cell",
   "government", "court", "income tax"]

def FEAR_TACTICS : List String :=
  ["blocked", "suspended", "frozen",
   "arrest", "fir", "court case",
   "penalty", "fraud", "illegal"]

def REWARD_BAITS : List String :=
  ["refund", "cashback", "reward",
   "prize", "lottery", "bonus"]

def VERIFICATION_REQUESTS : List String :=
  ["verify", "confirm", "authenticate",
   "kyc", "update details"]

def HINDI_ROMANIZED_WORDS : List String :=
  ["hai", "hain", "aap", "aapka", "aapko",
   "karo", "kijiye", "sir", "madam", "ji"]

def FORMAL_HINDI_PHRASES : List String :=
  ["namaste", "namaskar", "kripya"]

def EXCESSIVE_RESPECT_MARKERS : List String :=
  ["sir", "madam", "sirji", "madamji"]

def IMPERSONATION_SIGNALS : List String :=
  ["calling from", "i am from",
   "representing", "on behalf of",
   "executive", "officer", "agent"]

def INFORMATION_EXTRACTION : List String :=
  ["what is your", "share your",
   "send your", "confirm your",
   "pan", "aadhaar", "account number"]

/-! ## signals.py — dataclasses -/

-- requested_actions is a Python set; it is modelled as the duplicate-free
-- list of matching categories in table order (the policy only observes
-- membership, emptiness, intersection with a fixed set, and a join used in
-- a human-readable reason string).
structure IrreversibleActionSignals where
  requested_actions : List String := []
  explicit_phrases : List String := []
deriving DecidableEq, Repr

def HIGH_RISK_CATEGORIES : List String :=
  ["credential_sharing", "remote_access_installation",
   "immediate_payment", "account_access_sharing"]

def IrreversibleActionSignals.has_any (s : IrreversibleActionSignals) : Bool :=
  !s.requested_actions.isEmpty

def IrreversibleActionSignals.has_high_risk
    (s : IrreversibleActionSignals) : Bool :=
  s.requested_actions.any (fun a => HIGH_RISK_CATEGORIES.contains a)

structure PsychologicalTacticSignals where
  urgency_present : Bool := false
  urgency_phrases : List String := []
  urgency_intensity : String := "none"
  authority_claimed : Bool := false
  authority_entities : List String := []
  fear_tactics_present : Bool := false
  fear_phrases : List String := []
  reward_baiting : Bool := false
  reward_phrases : List String := []
  verification_requested : Bool := false
  verification_phrases : List String := []
deriving DecidableEq, Repr

structure LinguisticSignals where
  language_mixing : Bool := false
  hindi_word_count : Nat := 0
  english_word_count : Nat := 0
  excessive_respect : Bool := false
  respect_marker_count : Nat := 0
  formal_hindi_present : Bool := false
  impersonation_language : Bool := false
  impersonation_phrases : List String := []
deriving DecidableEq, Repr

structure ContextualSignals where
  information_extraction_attempt : Bool := false
  data_fields_requested : List String := []
  multiple_urgency_layers : Bool := false
  combined_tactics : List String := []
  escalation_detected : Bool := false
deriving DecidableEq, Repr

structure ExtractedSignals where
  irreversible : IrreversibleActionSignals := {}
  psychological : PsychologicalTacticSignals := {}
  linguistic : LinguisticSignals := {}
  contextual : ContextualSignals := {}
deriving DecidableEq, Repr

/-! ## signals.py — extraction functions -/

def extract_irreversible_actions (text : String) : IrreversibleActionSignals :=
  let text_lower := pyLower text
  { requested_actions :=
      (IRREVERSIBLE_ACTIONS.filter
        (fun cp => cp.2.any (fun p => wbSearch p text_lower))).map Prod.fst
    explicit_phrases :=
      (IRREVERSIBLE_ACTIONS.map
        (fun cp => cp.2.filter (fun p => wbSearch p text_lower))).flatten }

def extract_psychological_tactics (text : String) : PsychologicalTacticSignals :=
  let text_lower := pyLower text
  let urgency_matches := URGENCY_INDICATORS.filter (fun w => pyIn w text_lower)
  let authority_matches := AUTHORITY_CLAIMS.filter (fun w => pyIn w text_lower)
  let fear_matches := FEAR_TACTICS.filter (fun w => pyIn w text_lower)
  let reward_matches := REWARD_BAITS.filter (fun w => pyIn w text_lower)
  let verification_matches :=
    VERIFICATION_REQUESTS.filter (fun w => pyIn w text_lower)
  { urgency_present := !urgency_matches.isEmpty
    urgency_phrases := urgency_matches
    urgency_intensity :=
      if urgency_matches.isEmpty then "none"
      else if 3 ≤ urgency_matches.length then "high"
      else if urgency_matches.length == 2 then "medium"
      else "low"
    authority_claimed := !authority_matches.isEmpty
    authority_entities := authority_matches
    fear_tactics_present := !fear_matches.isEmpty
    fear_phrases := fear_matches
    reward_baiting := !reward_matches.isEmpty
    reward_phrases := reward_matches
    verification_requested := !verification_matches.isEmpty
    verification_phrases := verification_matches }

def extract_linguistic_signals (text : String) : LinguisticSignals :=
  let text_lower := pyLower text
  let words := pySplitWs text_lower
  let hindi_count :=
    (words.filter (fun w => HINDI_ROMANIZED_WORDS.contains w)).length
  let english_count :=
    (words.filter (fun w =>
      w.toList.all (fun c => c.toNat < 128) && !w.isEmpty
        && w.toList.all Char.isAlpha
        && !HINDI_ROMANIZED_WORDS.contains w)).length
  let respect_markers :=
    EXCESSIVE_RESPECT_MARKERS.filter (fun w => pyIn w text_lower)
  let impersonation_matches :=
    IMPERSONATION_SIGNALS.filter (fun p => pyIn p text_lower)
  { language_mixing := decide (0 < hindi_count) && decide (0 < english_count)
    hindi_word_count := hindi_count
    english_word_count := english_count
    excessive_respect := decide (2 ≤ respect_markers.length)
    respect_marker_count := respect_markers.length
    formal_hindi_present := FORMAL_HINDI_PHRASES.any (fun p => pyIn p text_lower)
    impersonation_language := !impersonation_matches.isEmpty
    impersonation_phrases := impersonation_matches }

def extract_contextual_signals (text : String)
    (psychological : PsychologicalTacticSignals) : ContextualSignals :=
  let text_lower := pyLower text
  let info_matches := INFORMATION_EXTRACTION.filter (fun p => pyIn p text_lower)
  let tactics :=
    (if psychological.urgency_present then ["urgency"] else []) ++
    (if psychological.authority_claimed then ["authority"] else []) ++
    (if psychological.fear_tactics_present then ["fear"] else []) ++
    (if psychological.reward_baiting then ["reward"] else [])
  { information_extraction_attempt := !info_matches.isEmpty
    data_fields_requested := info_matches
    multiple_urgency_layers := decide (2 ≤ tactics.length)
    combined_tactics := if 2 ≤ tactics.length then tactics else []
    escalation_detected :=
      decide (2 ≤ tactics.length)
        || (psychological.verification_requested
            && (psychological.urgency_present
                || psychological.authority_claimed)) }

def extract_signals (text : String) : ExtractedSignals :=
  let psychological := extract_psychological_tactics text
  { irreversible := extract_irreversible_actions text
    psychological := psychological
    linguistic := extract_linguistic_signals text
    contextual := extract_contextual_signals text psychological }

structure HardSignals where
  irreversible_actions : List String
  high_risk : Bool
  urgency : Bool
  authority : Bool
  fear : Bool
deriving DecidableEq, Repr

structure SoftSignals where
  language_mixing : Bool
  excessive_respect : Bool
  information_extraction : Bool
  combined_tactics : List String
deriving DecidableEq, Repr

def hard_signal_scan (text : String) : HardSignals :=
  let signals := extract_signals text
  { irreversible_actions := signals.irreversible.requested_actions
    high_risk := signals.irreversible.has_high_risk
    urgency := signals.psychological.urgency_present
    authority := signals.psychological.authority_claimed
    fear := signals.psychological.fear_tactics_present }

def soft_signal_placeholder (text : String) : SoftSignals :=
  let signals := extract_signals text
  { language_mixing := signals.linguistic.language_mixing
    excessive_respect := signals.linguistic.excessive_respect
    information_extraction := signals.contextual.information_extraction_attempt
    combined_tactics := signals.contextual.combined_tactics }

/-! ## policy.py — risk taxonomy and decision structure -/

inductive RiskBand where
  | CRITICAL
  | HIGH
  | MEDIUM
  | LOW
  | BENIGN
deriving DecidableEq, Repr

def RiskBand.value : RiskBand → String
  | .CRITICAL => "CRITICAL"
  | .HIGH => "HIGH"
  | .MEDIUM => "MEDIUM"
  | .LOW => "LOW"
  | .BENIGN => "BENIGN"

-- Python list(RiskBand).index(r): position in DECLARATION order, so the
-- most severe band CRITICAL has index 0 and BENIGN has index 4.
def riskIndex : RiskBand → Nat
  | .CRITICAL => 0
  | .HIGH => 1
  | .MEDIUM => 2
  | .LOW => 3
  | .BENIGN => 4

inductive EngagementStance where
  | BLOCK
  | ENGAGE_DEFENSIVE
  | ENGAGE_HONEYPOT
  | ALLOW
deriving DecidableEq, Repr

-- evidence_collected is a Python dict str -> any; the policy only ever
-- inspects it via the containment test needle in str(dict) for the
-- letters-only needle "authority".  Quotes, commas and brackets inserted
-- by str() cannot create or split an occurrence of such a needle, so the
-- dict is modelled as an association list whose values are lists of the
-- rendered element strings, and containment is checked per key and per
-- value element.
structure PolicyDecision where
  scam_detected : Bool
  risk_band : RiskBand
  confidence : String
  reasons : List String
  engage : Bool
  engagement_stance : EngagementStance
  recommended_actions : List String := []
  evidence_collected : List (String × List String) := []
  turn_count : Nat := 0
  risk_trajectory : String := "stable"
deriving DecidableEq, Repr

/-! ## policy.py — the duck-typed signal view consumed by the engine

evaluate_single_turn is duck-typed in Python: it is called both with the
ExtractedSignals dataclasses of signals.py (where has_any and
has_high_risk are computed from requested_actions) and with the adapter
classes built inside policy_gate (where has_high_risk is the hard-scan
flag and the phrase lists are stubbed).  The embedding therefore gives
the engine an interface record carrying exactly the attributes it reads,
with the two methods as Boolean fields, and instantiates it from each
caller as the source does. -/

structure PolicyIrreversible where
  requested_actions : List String
  explicit_phrases : List String
  has_any : Bool
  has_high_risk : Bool
deriving DecidableEq, Repr

structure PolicyPsychological where
  urgency_present : Bool
  urgency_phrases : List String
  urgency_intensity : String
  authority_claimed : Bool
  authority_entities : List String
  fear_tactics_present : Bool
  fear_phrases : List String
  reward_baiting : Bool
  verification_requested : Bool
deriving DecidableEq, Repr

structure PolicyLinguistic where
  language_mixing : Bool
  excessive_respect : Bool
  respect_marker_count : Nat
  impersonation_language : Bool
  impersonation_phrases : List String
deriving DecidableEq, Repr

structure PolicyContextual where
  information_extraction_attempt : Bool
  data_fields_requested : List String
  multiple_urgency_layers : Bool
  combined_tactics : List String
deriving DecidableEq, Repr

structure PolicySignals where
  irreversible : PolicyIrreversible
  psychological : PolicyPsychological
  linguistic : PolicyLinguistic
  contextual : PolicyContextual
deriving DecidableEq, Repr

def ExtractedSignals.toPolicy (s : ExtractedSignals) : PolicySignals :=
  { irreversible :=
      { requested_actions := s.irreversible.requested_actions
        explicit_phrases := s.irreversible.explicit_phrases
        has_any := s.irreversible.has_any
        has_high_risk := s.irreversible.has_high_risk }
    psychological :=
      { urgency_present := s.psychological.urgency_present
        urgency_phrases := s.psychological.urgency_phrases
        urgency_intensity := s.psychological.urgency_intensity
        authority_claimed := s.psychological.authority_claimed
        authority_entities := s.psychological.authority_entities
        fear_tactics_present := s.psychological.fear_tactics_present
        fear_phrases := s.psychological.fear_phrases
        reward_baiting := s.psychological.reward_baiting
        verification_requested := s.psychological.verification_requested }
    linguistic :=
      { language_mixing := s.linguistic.language_mixing
        excessive_respect := s.linguistic.excessive_respect
        respect_marker_count := s.linguistic.respect_marker_count
        impersonation_language := s.linguistic.impersonation_language
        impersonation_phrases := s.linguistic.impersonation_phrases }
    contextual :=
      { information_extraction_attempt :=
          s.contextual.information_extraction_attempt
        data_fields_requested := s.contextual.data_fields_requested
        multiple_urgency_layers := s.contextual.multiple_urgency_layers
        combined_tactics := s.contextual.combined_tactics } }

/-! ## policy.py — whitelist predicates -/

def is_legitimate_verification (signals : PolicySignals) : Bool :=
  if signals.irreversible.has_any then false
  else if signals.psychological.fear_tactics_present then false
  else if signals.irreversible.requested_actions.contains "credential_sharing"
    then false
  else if signals.psychological.verification_requested
      && !signals.psychological.urgency_present then true
  else false

def is_legitimate_authority (signals : PolicySignals) : Bool :=
  if signals.psychological.authority_claimed
      && signals.psychological.fear_tactics_present then false
  else if signals.psychological.authority_claimed
      && signals.psychological.urgency_present
      && (signals.psychological.fear_tactics_present
          || signals.psychological.reward_baiting) then false
  else if signals.psychological.authority_claimed
      && signals.linguistic.excessive_respect then false
  else true

/-! ## policy.py — single-turn tiered ladder -/

def evaluate_single_turn (signals : PolicySignals) : PolicyDecision :=
  let irreversible := signals.irreversible
  let psychological := signals.psychological
  let linguistic := signals.linguistic
  let contextual := signals.contextual
  -- TIER 1: CRITICAL — irreversible harm imminent
  if irreversible.has_high_risk then
    { scam_detected := true
      risk_band := RiskBand.CRITICAL
      confidence := "definitive"
      reasons := ["🚨 HIGH-RISK IRREVERSIBLE ACTION REQUESTED: "
        ++ String.intercalate ", " irreversible.requested_actions]
      engage := true
      engagement_stance := EngagementStance.ENGAGE_HONEYPOT
      recommended_actions := ["DO NOT comply with any requests",
        "Gather scammer information", "Log for law enforcement"]
      evidence_collected :=
        [("irreversible_actions", irreversible.requested_actions),
         ("explicit_phrases", irreversible.explicit_phrases)] }
  -- Any irreversible action (even lower risk) = HIGH
  else if irreversible.has_any then
    { scam_detected := true
      risk_band := RiskBand.HIGH
      confidence := "high"
      reasons := ["⚠️  Irreversible action requested: "
        ++ String.intercalate ", " irreversible.requested_actions]
      engage := true
      engagement_stance := EngagementStance.ENGAGE_HONEYPOT
      recommended_actions := ["Do not comply",
        "Continue engagement to gather intelligence"]
      evidence_collected :=
        [("irreversible_actions", irreversible.requested_actions)] }
  -- WHITELIST CHECK
  else if is_legitimate_verification signals then
    { scam_detected := false
      risk_band := RiskBand.LOW
      confidence := "medium"
      reasons := ["✓ Legitimate verification request pattern"]
      engage := true
      engagement_stance := EngagementStance.ALLOW
      recommended_actions := ["Monitor for escalation"] }
  -- Pattern 1: classic trinity
  else if psychological.authority_claimed && psychological.urgency_present
      && linguistic.language_mixing then
    { scam_detected := true
      risk_band := RiskBand.HIGH
      confidence := "high"
      reasons := ["🎯 CLASSIC SCAM PATTERN: Authority claim + urgency + "
        ++ "language mixing (Indian scam center signature)"]
      engage := true
      engagement_stance := EngagementStance.ENGAGE_HONEYPOT
      recommended_actions := ["High-confidence scam detected",
        "Continue engagement for intelligence gathering"]
      evidence_collected :=
        [("pattern", ["classic_indian_scam_trinity"]),
         ("authority_entities", psychological.authority_entities),
         ("urgency_intensity", [psychological.urgency_intensity])] }
  -- Pattern 2: compound psychological pressure
  else if contextual.multiple_urgency_layers then
    let tacticsReason := "🔥 COMPOUND PRESSURE TACTICS: "
      ++ String.intercalate ", " contextual.combined_tactics
    if psychological.authority_claimed then
      { scam_detected := true
        risk_band := RiskBand.HIGH
        confidence := "high"
        reasons := [tacticsReason, "Combined with authority claim — high risk"]
        engage := true
        engagement_stance := EngagementStance.ENGAGE_HONEYPOT
        evidence_collected :=
          [("combined_tactics", contextual.combined_tactics)] }
    else
      { scam_detected := true
        risk_band := RiskBand.MEDIUM
        confidence := "medium"
        reasons := [tacticsReason]
        engage := true
        engagement_stance := EngagementStance.ENGAGE_DEFENSIVE
        evidence_collected :=
          [("combined_tactics", contextual.combined_tactics)] }
  -- Pattern 3: authority + fear
  else if psychological.authority_claimed
      && psychological.fear_tactics_present then
    { scam_detected := true
      risk_band := RiskBand.HIGH
      confidence := "high"
      reasons := ["⚖️ THREAT-BASED SCAM: Authority claim with fear tactics",
        "Fear phrases: "
          ++ String.intercalate ", " (psychological.fear_phrases.take 3)]
      engage := true
      engagement_stance := EngagementStance.ENGAGE_HONEYPOT
      evidence_collected :=
        [("authority_entities", psychological.authority_entities),
         ("fear_phrases", psychological.fear_phrases)] }
  -- Pattern 4: information extraction + impersonation
  else if contextual.information_extraction_attempt
      && linguistic.impersonation_language then
    { scam_detected := true
      risk_band := RiskBand.HIGH
      confidence := "medium"
      reasons := ["🎭 IMPERSONATION + DATA EXTRACTION: "
        ++ "Claiming to be from organization while requesting sensitive info"]
      engage := true
      engagement_stance := EngagementStance.ENGAGE_DEFENSIVE
      evidence_collected :=
        [("impersonation_phrases", linguistic.impersonation_phrases),
         ("data_fields_requested", contextual.data_fields_requested)] }
  -- TIER 3: suspicious authority claim
  else if psychological.authority_claimed
      && !is_legitimate_authority signals then
    { scam_detected := true
      risk_band := RiskBand.MEDIUM
      confidence := "medium"
      reasons :=
        ("⚠️  Suspicious authority claim: "
          ++ String.intercalate ", " (psychological.authority_entities.take 2))
        :: (if linguistic.excessive_respect then
              ["Excessive formality detected ("
                ++ toString linguistic.respect_marker_count
                ++ " respect markers)"]
            else [])
      engage := true
      engagement_stance := EngagementStance.ENGAGE_DEFENSIVE
      recommended_actions := ["Request verification details",
        "Monitor for escalation"]
      evidence_collected :=
        if linguistic.excessive_respect then
          [("respect_marker_count", [toString linguistic.respect_marker_count])]
        else [] }
  -- High or medium urgency alone
  else if psychological.urgency_present
      && (psychological.urgency_intensity == "high"
          || psychological.urgency_intensity == "medium") then
    { scam_detected := false
      risk_band := RiskBand.MEDIUM
      confidence := "low"
      reasons := ["⏰ " ++ pyUpper psychological.urgency_intensity
        ++ " URGENCY detected: "
        ++ toString psychological.urgency_phrases.length
        ++ " urgency indicators"]
      engage := true
      engagement_stance := EngagementStance.ENGAGE_DEFENSIVE
      recommended_actions := ["Monitor for additional signals"]
      evidence_collected :=
        [("urgency_phrases", psychological.urgency_phrases)] }
  -- Information extraction attempt
  else if contextual.information_extraction_attempt then
    { scam_detected := false
      risk_band := RiskBand.MEDIUM
      confidence := "low"
      reasons := ["🔍 Information extraction attempt detected"]
      engage := true
      engagement_stance := EngagementStance.ENGAGE_DEFENSIVE
      evidence_collected :=
        [("data_fields_requested", contextual.data_fields_requested)] }
  else
    -- TIER 4: weak signals, else TIER 5: benign
    let weak_signals :=
      (if psychological.urgency_present then ["low urgency"] else []) ++
      (if psychological.reward_baiting then ["reward baiting"] else []) ++
      (if linguistic.language_mixing then ["language mixing"] else []) ++
      (if linguistic.excessive_respect then ["excessive formality"] else [])
    if !weak_signals.isEmpty then
      { scam_detected := false
        risk_band := RiskBand.LOW
        confidence := "low"
        reasons := ["ℹ️  Weak signals detected: "
          ++ String.intercalate ", " weak_signals]
        engage := true
        engagement_stance := EngagementStance.ALLOW
        recommended_actions := ["Continue monitoring"] }
    else
      { scam_detected := false
        risk_band := RiskBand.BENIGN
        confidence := "high"
        reasons := ["✓ No scam indicators detected"]
        engage := true
        engagement_stance := EngagementStance.ALLOW }

/-! ## policy.py — multi-turn composition -/

-- Python max(previous_risks, key=lambda r: list(RiskBand).index(r)):
-- first element attaining the maximal declaration-order index.  The empty
-- case is unreachable (Python max raises on an empty sequence; the caller
-- only reaches this under a non-empty history).
def pyMaxRiskList : List RiskBand → RiskBand
  | [] => RiskBand.BENIGN
  | h :: t =>
    t.foldl (fun best r => if riskIndex best < riskIndex r then r else best) h

-- Python: needle in str(d.evidence_collected) for a letters-only needle;
-- see the comment on PolicyDecision.evidence_collected.
def evidenceMentions (needle : String)
    (ev : List (String × List String)) : Bool :=
  ev.any (fun kv => pyIn needle kv.1 || kv.2.any (fun v => pyIn needle v))

-- Python: needle in str(d.reasons).lower() for a letters-only needle.
def reasonsMentionLower (needle : String) (rs : List String) : Bool :=
  rs.any (fun r => pyIn needle (pyLower r))

-- Placeholder handed to getLastD; never observed because the last element
-- is only read under a non-empty history.
def dummyDecision : PolicyDecision :=
  { scam_detected := false
    risk_band := RiskBand.BENIGN
    confidence := "low"
    reasons := []
    engage := false
    engagement_stance := EngagementStance.ALLOW }

def evaluate_conversation (current_signals : PolicySignals)
    (conversation_history : List PolicyDecision) : PolicyDecision :=
  let current0 := evaluate_single_turn current_signals
  let current := { current0 with turn_count := conversation_history.length + 1 }
  if conversation_history.isEmpty then
    { current with risk_trajectory := "initial" }
  else
    let highest_previous :=
      pyMaxRiskList (conversation_history.map (fun d => d.risk_band))
    -- ESCALATION RULE as written in the source: compare declaration-order
    -- indices (where CRITICAL has the LOWEST index).
    let c1 :=
      if riskIndex current.risk_band < riskIndex highest_previous then
        { current with
            risk_band := highest_previous
            reasons := ("⬆️ RISK FLOOR: Previous conversation reached "
              ++ highest_previous.value ++ " — risk cannot decrease")
              :: current.reasons
            risk_trajectory := "floor_applied" }
      else current
    let previous_decision := conversation_history.getLastD dummyDecision
    let c2 :=
      if riskIndex previous_decision.risk_band < riskIndex c1.risk_band then
        { c1 with
            risk_trajectory := "escalating"
            reasons := ("📈 ESCALATION DETECTED: "
              ++ previous_decision.risk_band.value ++ " → "
              ++ c1.risk_band.value) :: c1.reasons }
      else { c1 with risk_trajectory := "stable" }
    let c3 :=
      if 2 ≤ conversation_history.length then
        let authority_count :=
          (conversation_history.filter
            (fun d => evidenceMentions "authority" d.evidence_collected)).length
        let c3a :=
          if decide (2 ≤ authority_count)
              && current_signals.psychological.authority_claimed then
            { c2 with
                reasons := c2.reasons ++ ["🔁 PERSISTENT AUTHORITY CLAIMS: "
                  ++ toString (authority_count + 1) ++ " turns"]
                confidence :=
                  if c2.confidence == "medium" then "high" else c2.confidence }
          else c2
        let urgency_count :=
          (conversation_history.filter
            (fun d => reasonsMentionLower "urgency" d.reasons)).length
        if decide (2 ≤ urgency_count)
            && current_signals.psychological.urgency_present then
          { c3a with reasons := c3a.reasons ++ ["🔁 PERSISTENT URGENCY: "
              ++ toString (urgency_count + 1) ++ " turns"] }
        else c3a
      else c2
    if conversation_history.any (fun d => d.scam_detected) then
      { c3 with scam_detected := true }
    else c3

-- Main entry point: a None or empty history takes the single-turn branch.
def evaluate_message (signals : PolicySignals)
    (conversation_history : List PolicyDecision) : PolicyDecision :=
  if conversation_history.isEmpty then evaluate_single_turn signals
  else evaluate_conversation signals conversation_history

/-! ## policy.py — legacy adapter for main.py -/

inductive PyVal where
  | str (s : String)
  | bool (b : Bool)
  | none
deriving DecidableEq, Repr

structure GateResult where
  scam : Bool
  risk : String
  confidence : String
  risk_band : String
  reasons : List String
  validation : List (String × PyVal)
deriving DecidableEq, Repr

def policy_gate (hard : HardSignals) (soft : SoftSignals)
    (validation : List (String × PyVal)) : GateResult :=
  let signals : PolicySignals :=
    { irreversible :=
        { requested_actions := hard.irreversible_actions
          explicit_phrases := []
          has_any := !hard.irreversible_actions.isEmpty
          has_high_risk := hard.high_risk }
      psychological :=
        { urgency_present := hard.urgency
          authority_claimed := hard.authority
          fear_tactics_present := hard.fear
          reward_baiting := false
          verification_requested := false
          urgency_intensity := if hard.urgency then "high" else "none"
          urgency_phrases := if hard.urgency then ["urgency"] else []
          authority_entities := []
          fear_phrases := [] }
      linguistic :=
        { language_mixing := soft.language_mixing
          excessive_respect := soft.excessive_respect
          respect_marker_count := 0
          impersonation_language := false
          impersonation_phrases := [] }
      contextual :=
        { information_extraction_attempt := soft.information_extraction
          combined_tactics := soft.combined_tactics
          multiple_urgency_layers := decide (2 ≤ soft.combined_tactics.length)
          data_fields_requested := [] } }
  let decision := evaluate_message signals []
  { scam := decision.scam_detected
    risk := decision.risk_band.value
    confidence := decision.confidence
    risk_band := decision.risk_band.value
    reasons := decision.reasons
    validation := validation }

/-! ## agent.py — language detection, intent detection, scripted replies -/

def isLatinLetter (c : Char) : Bool :=
  (0x41 ≤ c.toNat && c.toNat ≤ 0x5A) || (0x61 ≤ c.toNat && c.toNat ≤ 0x7A)

def hinglish_words : List String :=
  ["bhai", "yaar", "kya", "hai", "haan", "nahi", "theek", "accha",
   "arre", "beta", "ji", "aapka", "mera", "karo", "bolo", "suno",
   "abhi", "phir", "kab", "kahan", "kyun", "kaise", "aap", "aapne",
   "mujhe", "mere", "tumhara", "humara", "wala", "wali", "kar", "ho"]

-- len(re.findall(r"[ऀ-ॿ]", text)) in _detect_language.
def hindi_chars (text : String) : Nat :=
  (text.toList.filter isDevanagari).length

-- len(re.findall(r"[a-zA-Zऀ-ॿ]", text)) in _detect_language.
def total_chars (text : String) : Nat :=
  (text.toList.filter (fun c => isLatinLetter c || isDevanagari c)).length

-- The local called hindi_ratio in the source (name shortened here);
-- mkRat h t is the exact rational h / t, with mkRat h 0 = 0 exactly as
-- the guarded Python expression leaves the ratio 0 for a zero denominator.
def hindiFraction (text : String) : ℚ :=
  mkRat (hindi_chars text) (total_chars text)

-- Count of tokenised words found in the Hinglish marker lexicon.
def hinglish_count (text : String) : Nat :=
  ((pyWordTokens (pyLower text)).filter
    (fun w => hinglish_words.contains w)).length

-- Python compares the IEEE-double division result against the literals
-- 0.8 and 0.1; this is modelled by exact rational comparison, which
-- agrees with the float semantics on the small character-count ratios
-- this service manipulates.
def detect_language (text : String) : String :=
  if total_chars text == 0 then "english"
  else if hindiFraction text > mkRat 4 5 then "hindi"
  else if decide (0 < hinglish_count text)
      || (decide (hindiFraction text > mkRat 1 10)
          && decide (hindiFraction text < mkRat 4 5)) then "hinglish"
  else "english"

def detect_intent (msg : String) : String :=
  let msg_lower := pyLower msg
  if ["otp", "pin", "password", "cvv", "code", "verify", "verification",
      "passcode", "security code", "आओटीपी", "पासवर्ड",
      "कोड"].any (fun w => pyIn w msg_lower) then "credential_trap"
  else if ["upi", "payment", "refund", "amount", "rs", "money", "rupees",
      "paytm", "phonepe", "gpay", "transfer", "account", "रुपये",
      "पैसे"].any (fun w => pyIn w msg_lower) then "money_trap"
  else if ["bank", "police", "officer", "department", "rbi", "government",
      "official", "cybercrime", "पुलिस", "बैंक",
      "सरकार"].any (fun w => pyIn w msg_lower) then "authority_trap"
  else if ["install", "download", "anydesk", "teamviewer", "remote",
      "app", "link", "click", "डाउनलोड",
      "इंस्टॉल"].any (fun w => pyIn w msg_lower) then "device_trap"
  else if ["urgent", "block", "suspend", "arrest", "immediately", "now",
      "hurry", "quick", "emergency", "जल्दी",
      "तुरंत"].any (fun w => pyIn w msg_lower) then "panic_trap"
  else if ["hello", "hi", "good morning", "good afternoon", "good evening",
      "this is", "i am calling from", "नमस्ते",
      "हेलो"].any (fun w => pyIn w msg_lower) then "greeting"
  else "unknown"

def response_strategy (_intent : String) (agent_count : Nat) : String :=
  if agent_count < 2 then "manual" else "llm"

def MANUAL_RESPONSES : List (String × List (String × List String)) :=
  [("credential_trap",
     [("english",
        ["I didn\x27t receive any code yet",
         "Which code are you referring to?",
         "Can you send it again?"]),
      ("hinglish",
        ["Mujhe koi code nahi aaya abhi tak",
         "Kaun sa code ki baat kar rahe ho?",
         "Dobara bhej sakte ho kya?"]),
      ("hindi",
        ["मुझे अभी तक कोई कोड नहीं मिला",
         "आप किस कोड की बात कर रहे हैं?",
         "फिर से भेज सकते हो?"])]),
   ("money_trap",
     [("english",
        ["Which amount exactly?",
         "I have two accounts, which one?",
         "How much money are we talking about?"]),
      ("hinglish",
        ["Kitna amount hai exactly?",
         "Mere do accounts hain, kaun sa?",
         "Kitne paise ki baat ho rahi hai?"]),
      ("hindi",
        ["कितनी रकम है?",
         "मेरे दो खाते हैं, कौन सा?",
         "कितने पैसे की बात हो रही है?"])]),
   ("authority_trap",
     [("english",
        ["Which branch are you calling from?",
         "Can you share the official number?",
         "What is your employee ID?"]),
      ("hinglish",
        ["Aap kaun se branch se call kar rahe ho?",
         "Official number share kar sakte ho?",
         "Aapki employee ID kya hai?"]),
      ("hindi",
        ["आप किस ब्रांच से कॉल कर रहे हो?",
         "आधिकारिक नंबर शेयर कर सकते हो?",
         "आपकी कर्मचारी आईडी क्या है?"])]),
   ("device_trap",
     [("english",
        ["My phone storage is full",
         "Is it really necessary?",
         "Can we do this without downloading?"]),
      ("hinglish",
        ["Mere phone ki storage full hai",
         "Ye zaruri hai kya really?",
         "Bina download kiye ho sakta hai?"]),
      ("hindi",
        ["मेरे फोन की स्टोरेज भरी है",
         "क्या यह सच में जरूरी है?",
         "बिना डाउनलोड किए हो सकता है?"])]),
   ("panic_trap",
     [("english",
        ["Please explain slowly",
         "What happened exactly?",
         "I\x27m getting confused, start from beginning"]),
      ("hinglish",
        ["Dhire dhire samjhao please",
         "Hua kya exactly?",
         "Main confuse ho raha hoon, shuru se batao"]),
      ("hindi",
        ["कृपया धीरे-धीरे समझाओ",
         "हुआ क्या?",
         "मैं भ्रमित हो रहा हूं, शुरू से बताओ"])]),
   ("greeting",
     [("english",
        ["Hello, who is this?",
         "Yes, how can I help?"]),
      ("hinglish",
        ["Hello, kaun bol raha hai?",
         "Haan, kaise madad kar sakta hoon?"]),
      ("hindi",
        ["नमस्ते, कौन बोल रहा है?",
         "हां, कैसे मदद कर सकता हूं?"])]),
   ("unknown",
     [("english",
        ["I didn\x27t understand",
         "Can you explain again?",
         "What do you mean?"]),
      ("hinglish",
        ["Main samjha nahi",
         "Phir se samjha sakte ho?",
         "Matlab kya hai?"]),
      ("hindi",
        ["मैं समझा नहीं",
         "फिर से समझा सकते हो?",
         "मतलब क्या है?"])])]

structure HistoryMessage where
  role : String
  message : String
deriving DecidableEq, Repr

-- The Groq LLM branch (_groq_generate_reply) performs network I/O to an
-- external provider; per the spec it is an external collaborator and is
-- modelled as an oracle parameter mapping (history, language) to a reply.
-- The scripted branch, which is what the claims constrain, is embedded
-- fully.
def generate_agent_reply
    (llmReply : List HistoryMessage → String → String)
    (history : List HistoryMessage) : String :=
  if history.isEmpty then "Hello?"
  else
    match (history.reverse.find? (fun m => m.role == "scammer")).map
        (fun m => pyStrip m.message) with
    | Option.none => "Yes, I\x27m listening?"
    | Option.some last_scammer_msg =>
      if last_scammer_msg.isEmpty then "Yes, I\x27m listening?"
      else
        let language := detect_language last_scammer_msg
        let agent_count := (history.filter (fun m => m.role == "agent")).length
        let intent := detect_intent last_scammer_msg
        let strategy := response_strategy intent agent_count
        if strategy == "manual" then
          let intent_responses := (MANUAL_RESPONSES.lookup intent).getD
            ((MANUAL_RESPONSES.lookup "unknown").getD [])
          let lang_responses := (intent_responses.lookup language).getD
            ((intent_responses.lookup "english").getD ["I see"])
          lang_responses.getD (agent_count % lang_responses.length) ""
        else llmReply history language

/-! ## memory.py — in-process conversation store -/

def MAX_HISTORY : Nat := 6

def get_history (store : String → List HistoryMessage)
    (conversation_id : String) : List HistoryMessage :=
  store conversation_id

def append_message (store : String → List HistoryMessage)
    (conversation_id role message : String) :
    String → List HistoryMessage :=
  fun id =>
    if id == conversation_id then
      let l := store conversation_id ++ [⟨role, message⟩]
      if MAX_HISTORY < l.length then l.drop (l.length - MAX_HISTORY) else l
    else store id

/-! ## validator.py — authority validation -/

def KNOWN_AUTHORITIES : List (String × String) :=
  [("hdfc", "bank"), ("icici", "bank"), ("sbi", "bank"),
   ("axis", "bank"), ("kotak", "bank"), ("rbi", "regulator"),
   ("fedex", "courier"), ("bluedart", "courier"), ("dhl", "courier"),
   ("police", "law_enforcement")]

-- validator.validate_authority_claim as defined: TWO required parameters
-- (claimed_entity, message).  Its LLM advisory (_analyze_impersonation_llm)
-- is external network I/O, modelled as an oracle returning the optional
-- likelihood string.
def validate_authority_claim (llmImpersonation : String → Option String)
    (claimed_entity : Option String) (message : String) :
    List (String × PyVal) :=
  match claimed_entity with
  | Option.none =>
    [("authority_claimed", PyVal.bool false),
     ("authority_exists", PyVal.none),
     ("impersonation_likelihood", PyVal.none),
     ("validation_method", PyVal.str "none"),
     ("notes", PyVal.str "No authority claim detected")]
  | Option.some entity =>
    let existsFlag := (KNOWN_AUTHORITIES.lookup entity).isSome
    let impersonation := llmImpersonation message
    [("authority_claimed", PyVal.bool true),
     ("authority_name", PyVal.str entity),
     ("authority_exists", PyVal.bool existsFlag),
     ("authority_type",
       match KNOWN_AUTHORITIES.lookup entity with
       | Option.some t => PyVal.str t
       | Option.none => PyVal.none),
     ("impersonation_likelihood",
       match impersonation with
       | Option.some l => PyVal.str l
       | Option.none => PyVal.none),
     ("validation_method", PyVal.str "static_registry + linguistic_analysis"),
     ("notes", PyVal.str ("Authority existence checked via static registry. "
       ++ "Language analyzed for impersonation patterns. "
       ++ "No external verification performed."))]

inductive PyResult (α : Type) where
  | ok (value : α)
  | exc (typeName : String)
deriving DecidableEq, Repr

-- Number of parameters of validate_authority_claim that have no default
-- (validator.py line 103: claimed_entity and message).
def validate_authority_claim_required_args : Nat := 2

-- Number of arguments supplied at the call site in main.py line 207:
-- validate_authority_claim(claimed).
def main_validation_call_args : Nat := 1

-- Python raises TypeError before entering the callee when a call supplies
-- fewer arguments than the callee requires; the shallow embedding checks
-- the two recorded arities.  When the arities match the genuine body runs
-- with the one supplied argument in the first slot.
def authority_validation_call (llmImpersonation : String → Option String)
    (claimed : Option String) (message : String) :
    PyResult (List (String × PyVal)) :=
  if main_validation_call_args < validate_authority_claim_required_args then
    PyResult.exc "TypeError"
  else
    PyResult.ok (validate_authority_claim llmImpersonation claimed message)

/-! ## main.py — honeypot_endpoint_logic -/

structure HoneypotRequest where
  conversation_id : String
  turn : Nat
  message : String
  execution_mode : String
deriving DecidableEq, Repr

structure ResponseExplanation where
  risk_band : String
  reasons : List String
  hard_signals : HardSignals
  soft_signals : SoftSignals
  validation : List (String × PyVal)
deriving DecidableEq, Repr

structure HoneypotResponse where
  scam_detected : Bool
  risk_score : String
  decision_confidence : String
  agent_reply : Option String
  extracted_intelligence : List String × List String
  engagement_metrics_turn : Nat
  engagement_metrics_history_length : Nat
  explanation : ResponseExplanation
deriving DecidableEq, Repr

-- extract_authority: validator.extract_authority_claim (a small regex set
-- whose result feeds only the validation call that always raises, so its
-- value is never observed); extract_intel: extractor.py regex scraping of
-- UPI handles and URLs (out of scope per the spec, response passthrough
-- only).  Both are passed as parameters.  The returned pair is
-- (response, updated store).
def honeypot_endpoint_logic
    (extract_authority : String → Option String)
    (llmImpersonation : String → Option String)
    (llmReply : List HistoryMessage → String → String)
    (extract_intel : String → List String × List String)
    (store : String → List HistoryMessage)
    (req : HoneypotRequest) :
    HoneypotResponse × (String → List HistoryMessage) :=
  -- Steps 1-2: append the scammer message and re-read the history.
  let store1 := append_message store req.conversation_id "scammer" req.message
  let history := get_history store1 req.conversation_id
  -- Step 3: signal extraction (pure; the except branch is unreachable).
  let hard := hard_signal_scan req.message
  let soft := soft_signal_placeholder req.message
  -- Step 4: the one-argument call into the two-parameter validator raises
  -- TypeError which the handler catches, substituting the empty dict.
  let validation :=
    match authority_validation_call llmImpersonation
        (extract_authority req.message) req.message with
    | PyResult.ok v => v
    | PyResult.exc _ => []
  -- Step 5: policy decision.
  let decision := policy_gate hard soft validation
  -- Step 6: agent reply in live mode.  The Python history list object read
  -- at step 2 is mutated in place when the agent turn is appended (the
  -- MAX_HISTORY trim rebinds the store entry but not this alias), so the
  -- length reported at step 8 includes the agent turn in live mode.
  let agentTriple :=
    if req.execution_mode == "live" then
      let h2 := get_history store1 req.conversation_id
      let reply := generate_agent_reply llmReply h2
      (Option.some reply,
       append_message store1 req.conversation_id "agent" reply,
       h2.length + 1)
    else (Option.none, store1, history.length)
  -- Step 7: intelligence extraction.
  let intel := extract_intel req.message
  -- Step 8: response envelope.
  ({ scam_detected := decision.scam
     risk_score := decision.risk
     decision_confidence := decision.confidence
     agent_reply := agentTriple.1
     extracted_intelligence := intel
     engagement_metrics_turn := if req.turn == 0 then 1 else req.turn
     engagement_metrics_history_length := agentTriple.2.2
     explanation :=
       { risk_band := decision.risk_band
         reasons := if decision.reasons.isEmpty then [] else decision.reasons
         hard_signals := hard
         soft_signals := soft
         validation := validation } },
   agentTriple.2.1)

/-! ## Concrete fixtures shared by several theorems below -/

-- A message whose extracted signals request the high-risk category
-- credential_sharing ("otp" matches with word boundaries).
def otpSignals : PolicySignals := (extract_signals "please share the otp").toPolicy

-- A message with no indicators at all.
def thanksSignals : PolicySignals := (extract_signals "thank you").toPolicy

def otpDecision : PolicyDecision := evaluate_single_turn otpSignals

def thanksDecision : PolicyDecision := evaluate_single_turn thanksSignals

-- Inert stand-ins for the external collaborators (authority-claim regex,
-- LLM impersonation hint, LLM reply, intelligence regex).
def noAuthority : String → Option String := fun _ => Option.none

def noImpersonation : String → Option String := fun _ => Option.none

def cannedLlmReply : List HistoryMessage → String → String := fun _ _ => "ok"

def noIntel : String → List String × List String := fun _ => ([], [])

def emptyStore : String → List HistoryMessage := fun _ => []

-- Every string appearing anywhere in the MANUAL_RESPONSES table.
def allManualReplies : List String :=
  (MANUAL_RESPONSES.map (fun kv => (kv.2.map Prod.snd).flatten)).flatten

-- The fixture request of the end-to-end greeting scenario.
def greetingRequest : HoneypotRequest :=
  { conversation_id := "A"
    turn := 1
    message := "Hello sir, I am calling from State Bank"
    execution_mode := "live" }

def greetingResponse : HoneypotResponse :=
  (honeypot_endpoint_logic noAuthority noImpersonation cannedLlmReply noIntel
    emptyStore greetingRequest).1

/-! ## Helper lemmas -/

theorem urgency_intensity_cases (l : List String) :
    ((if l.isEmpty then "none"
      else if 3 ≤ l.length then "high"
      else if l.length == 2 then "medium" else "low") = "high"
        ↔ 3 ≤ l.length) ∧
    ((if l.isEmpty then "none"
      else if 3 ≤ l.length then "high"
      else if l.length == 2 then "medium" else "low") = "medium"
        ↔ l.length = 2) ∧
    ((if l.isEmpty then "none"
      else if 3 ≤ l.length then "high"
      else if l.length == 2 then "medium" else "low") = "low"
        ↔ l.length = 1) ∧
    ((if l.isEmpty then "none"
      else if 3 ≤ l.length then "high"
      else if l.length == 2 then "medium" else "low") = "none"
        ↔ l.length = 0) := by
  cases l with
  | nil => simp
  | cons a t =>
    by_cases h3 : 3 ≤ (a :: t).length
    · simp only [List.isEmpty_cons, Bool.false_eq_true, if_false, if_pos h3]
      exact ⟨iff_of_true (by decide) h3,
        iff_of_false (by decide) (by omega),
        iff_of_false (by decide) (by omega),
        iff_of_false (by decide) (by omega)⟩
    · by_cases h2 : (a :: t).length = 2
      · simp only [List.isEmpty_cons, Bool.false_eq_true, if_false,
          if_neg h3, if_pos (by simpa using h2 : ((a :: t).length == 2) = true)]
        exact ⟨iff_of_false (by decide) (by omega),
          iff_of_true (by decide) h2,
          iff_of_false (by decide) (by omega),
          iff_of_false (by decide) (by omega)⟩
      · have hlen : (a :: t).length = 1 := by
          simp only [List.length_cons] at h3 h2 ⊢
          omega
        simp only [List.isEmpty_cons, Bool.false_eq_true, if_false,
          if_neg h3, if_neg (by simpa using h2 : ¬((a :: t).length == 2) = true)]
        exact ⟨iff_of_false (by decide) (by omega),
          iff_of_false (by decide) (by omega),
          iff_of_true (by decide) hlen,
          iff_of_false (by decide) (by omega)⟩

theorem single_turn_not_critical (p : PolicySignals)
    (h : p.irreversible.has_high_risk = false) :
    (evaluate_single_turn p).risk_band ≠ RiskBand.CRITICAL := by
  have hne : ∀ (c : Prop) (inst : Decidable c) (x y : RiskBand),
      x ≠ RiskBand.CRITICAL → y ≠ RiskBand.CRITICAL →
      (@ite _ c inst x y) ≠ RiskBand.CRITICAL := by
    intro c inst x y hx hy
    by_cases hc : c
    · rw [if_pos hc]; exact hx
    · rw [if_neg hc]; exact hy
  unfold evaluate_single_turn
  dsimp only
  rw [h, if_neg (show ¬(false = true) by decide)]
  simp only [apply_ite PolicyDecision.risk_band]
  repeat' apply hne
  all_goals decide

/-! ## Claim theorems -/

/-- C1: the monotone-risk floor is inverted in the code.  With one prior
CRITICAL decision on record and a benign current turn,
evaluate_conversation returns risk_band BENIGN — strictly below the prior
maximum — and labels the trajectory "escalating" instead of applying the
claimed floor with trajectory "floor_applied".  The cause is that
list(RiskBand).index gives declaration-order positions in which CRITICAL
is 0 and BENIGN is 4, so every ordering comparison in
evaluate_conversation is reversed, contradicting the functions own
docstring (risk can ONLY increase or stay stable, never decrease). -/
theorem c1_risk_floor_inverted :
    otpDecision.risk_band = RiskBand.CRITICAL ∧
    otpDecision.scam_detected = true ∧
    (evaluate_conversation thanksSignals [otpDecision]).risk_band =
      RiskBand.BENIGN ∧
    (evaluate_conversation thanksSignals [otpDecision]).risk_trajectory =
      "escalating" := by
  refine ⟨by decide, by decide, by decide, by decide⟩

/-- C2: the sticky-scam invariant holds.  For every signals value and
every non-empty prior-decision list containing some decision with
scam_detected = true, evaluate_conversation returns a decision with
scam_detected = true (the final override in the source sets the flag
after all other post-processing). -/
theorem c2_sticky_scam (signals : PolicySignals)
    (history : List PolicyDecision) (hne : history ≠ [])
    (hprior : ∃ d ∈ history, d.scam_detected = true) :
    (evaluate_conversation signals history).scam_detected = true := by
  have hany : history.any (fun d => d.scam_detected) = true := by
    simpa [List.any_eq_true] using hprior
  cases history with
  | nil => exact absurd rfl hne
  | cons d t => simp [evaluate_conversation, hany]

/-- C2 witness: a concrete two-turn conversation in which turn 1 detected
a scam keeps scam_detected = true at turn 2 even though the current turn
is benign. -/
theorem c2_sticky_scam_witness :
    ([otpDecision] ≠ ([] : List PolicyDecision)) ∧
    (∃ d ∈ [otpDecision], d.scam_detected = true) ∧
    (evaluate_conversation thanksSignals [otpDecision]).scam_detected = true :=
  ⟨by decide, ⟨otpDecision, by decide⟩,
    c2_sticky_scam thanksSignals [otpDecision] (by decide)
      ⟨otpDecision, by decide⟩⟩

/-- C3: for single-turn evaluation the claim holds in both directions —
high-risk irreversible signals force a CRITICAL, definitive,
ENGAGE_HONEYPOT decision, and a CRITICAL single-turn decision only arises
from high-risk irreversible signals.  The conversation half of the claim
fails: with one benign prior decision the inverted floor comparison
rewrites the CRITICAL verdict down to BENIGN, so evaluate_conversation
does NOT return CRITICAL for every prior-decision list. -/
theorem c3_critical_characterisation :
    (∀ s : ExtractedSignals, s.irreversible.has_high_risk = true →
      (evaluate_single_turn s.toPolicy).risk_band = RiskBand.CRITICAL ∧
      (evaluate_single_turn s.toPolicy).confidence = "definitive" ∧
      (evaluate_single_turn s.toPolicy).engagement_stance =
        EngagementStance.ENGAGE_HONEYPOT) ∧
    (∀ s : ExtractedSignals,
      (evaluate_single_turn s.toPolicy).risk_band = RiskBand.CRITICAL →
      s.irreversible.has_high_risk = true) ∧
    ((extract_signals "please share the otp").irreversible.has_high_risk
        = true ∧
      (evaluate_conversation otpSignals [thanksDecision]).risk_band =
        RiskBand.BENIGN) := by
  refine ⟨?_, ?_, by decide, by decide⟩
  · intro s hs
    have hsP : s.toPolicy.irreversible.has_high_risk = true := hs
    simp [evaluate_single_turn, hsP]
  · intro s hs
    cases hb : s.irreversible.has_high_risk with
    | true => rfl
    | false => exact absurd hs (single_turn_not_critical s.toPolicy hb)

/-- C3 witness: the single-turn direction applied to the concrete
credential-sharing message. -/
theorem c3_critical_witness :
    (extract_signals "please share the otp").irreversible.has_high_risk
      = true ∧
    (evaluate_single_turn
      (extract_signals "please share the otp").toPolicy).risk_band =
        RiskBand.CRITICAL :=
  ⟨by decide,
    (c3_critical_characterisation.1 (extract_signals "please share the otp")
      (by decide)).1⟩

/-- C4: the legitimate-verification whitelist short-circuit holds.  For
every extracted-signals record satisfying is_legitimate_verification
(no irreversible actions, no fear tactics, no credential_sharing
category, verification requested without urgency), evaluate_single_turn
returns scam_detected false, risk_band LOW, confidence medium and stance
ALLOW: the two irreversible tiers cannot fire because the whitelist
precondition forces requested_actions to be empty. -/
theorem c4_whitelist_short_circuit (s : ExtractedSignals)
    (hleg : is_legitimate_verification s.toPolicy = true) :
    (evaluate_single_turn s.toPolicy).scam_detected = false ∧
    (evaluate_single_turn s.toPolicy).risk_band = RiskBand.LOW ∧
    (evaluate_single_turn s.toPolicy).confidence = "medium" ∧
    (evaluate_single_turn s.toPolicy).engagement_stance =
      EngagementStance.ALLOW := by
  cases hany : s.toPolicy.irreversible.has_any with
  | true => simp [is_legitimate_verification, hany] at hleg
  | false =>
    have hempty : s.irreversible.requested_actions = [] := by
      have h2 : (!s.irreversible.requested_actions.isEmpty) = false := hany
      simpa using h2
    have hhr : s.toPolicy.irreversible.has_high_risk = false := by
      show s.irreversible.has_high_risk = false
      simp [IrreversibleActionSignals.has_high_risk, hempty]
    simp [evaluate_single_turn, hhr, hany, hleg]

/-- C4 witness: a plain verification request without pressure is
whitelisted to a LOW decision. -/
theorem c4_whitelist_witness :
    is_legitimate_verification
      (extract_signals "Please verify your email at your convenience").toPolicy
        = true ∧
    (evaluate_single_turn
      (extract_signals
        "Please verify your email at your convenience").toPolicy).risk_band =
          RiskBand.LOW :=
  ⟨by decide,
    (c4_whitelist_short_circuit
      (extract_signals "Please verify your email at your convenience")
      (by decide)).2.1⟩

/-- C5: the per-request verdict fields are a pure function of the message
text.  Two requests with equal message fields processed against arbitrary
(possibly different) stores yield equal scam_detected, risk_score,
decision_confidence and explanation.reasons, because the endpoint invokes
policy_gate, which calls evaluate_message with no prior-decision list. -/
theorem c5_verdict_function_of_message
    (extract_authority llmImpersonation : String → Option String)
    (llmReply : List HistoryMessage → String → String)
    (extract_intel : String → List String × List String)
    (store₁ store₂ : String → List HistoryMessage)
    (req₁ req₂ : HoneypotRequest) (hmsg : req₁.message = req₂.message) :
    (honeypot_endpoint_logic extract_authority llmImpersonation llmReply
        extract_intel store₁ req₁).1.scam_detected =
      (honeypot_endpoint_logic extract_authority llmImpersonation llmReply
        extract_intel store₂ req₂).1.scam_detected ∧
    (honeypot_endpoint_logic extract_authority llmImpersonation llmReply
        extract_intel store₁ req₁).1.risk_score =
      (honeypot_endpoint_logic extract_authority llmImpersonation llmReply
        extract_intel store₂ req₂).1.risk_score ∧
    (honeypot_endpoint_logic extract_authority llmImpersonation llmReply
        extract_intel store₁ req₁).1.decision_confidence =
      (honeypot_endpoint_logic extract_authority llmImpersonation llmReply
        extract_intel store₂ req₂).1.decision_confidence ∧
    (honeypot_endpoint_logic extract_authority llmImpersonation llmReply
        extract_intel store₁ req₁).1.explanation.reasons =
      (honeypot_endpoint_logic extract_authority llmImpersonation llmReply
        extract_intel store₂ req₂).1.explanation.reasons := by
  obtain ⟨c₁, t₁, m₁, e₁⟩ := req₁
  obtain ⟨c₂, t₂, m₂, e₂⟩ := req₂
  have hm : m₁ = m₂ := hmsg
  subst hm
  exact ⟨rfl, rfl, rfl, rfl⟩

/-- C5 witness: two requests with the same message but different
conversation ids, turns, execution modes and stored histories receive
identical verdict fields. -/
theorem c5_witness :
    (honeypot_endpoint_logic noAuthority noImpersonation cannedLlmReply
        noIntel emptyStore ⟨"A", 1, "hi", "live"⟩).1.scam_detected =
      (honeypot_endpoint_logic noAuthority noImpersonation cannedLlmReply
        noIntel (fun _ => [⟨"agent", "x"⟩])
          ⟨"B", 0, "hi", "shadow"⟩).1.scam_detected ∧
    (honeypot_endpoint_logic noAuthority noImpersonation cannedLlmReply
        noIntel emptyStore ⟨"A", 1, "hi", "live"⟩).1.risk_score =
      (honeypot_endpoint_logic noAuthority noImpersonation cannedLlmReply
        noIntel (fun _ => [⟨"agent", "x"⟩])
          ⟨"B", 0, "hi", "shadow"⟩).1.risk_score ∧
    (honeypot_endpoint_logic noAuthority noImpersonation cannedLlmReply
        noIntel emptyStore ⟨"A", 1, "hi", "live"⟩).1.decision_confidence =
      (honeypot_endpoint_logic noAuthority noImpersonation cannedLlmReply
        noIntel (fun _ => [⟨"agent", "x"⟩])
          ⟨"B", 0, "hi", "shadow"⟩).1.decision_confidence ∧
    (honeypot_endpoint_logic noAuthority noImpersonation cannedLlmReply
        noIntel emptyStore ⟨"A", 1, "hi", "live"⟩).1.explanation.reasons =
      (honeypot_endpoint_logic noAuthority noImpersonation cannedLlmReply
        noIntel (fun _ => [⟨"agent", "x"⟩])
          ⟨"B", 0, "hi", "shadow"⟩).1.explanation.reasons :=
  c5_verdict_function_of_message noAuthority noImpersonation cannedLlmReply
    noIntel emptyStore (fun _ => [⟨"agent", "x"⟩])
    ⟨"A", 1, "hi", "live"⟩ ⟨"B", 0, "hi", "shadow"⟩ rfl

/-- C6 counterexample: the greeting scenario does NOT produce risk_score
MEDIUM or a scripted greeting reply.  With a single respect marker the
excessive_respect flag stays false, is_legitimate_authority passes, no
weak signal registers, and the verdict is BENIGN; intent detection
matches the substring bank before the greeting patterns, so the reply is
the first English authority_trap script. -/
theorem c6_counterexample :
    greetingResponse.risk_score = "BENIGN" ∧
    greetingResponse.risk_score ≠ "MEDIUM" ∧
    greetingResponse.agent_reply = some "Which branch are you calling from?" ∧
    greetingResponse.agent_reply ≠ some "Hello, who is this?" ∧
    greetingResponse.agent_reply ≠ some "Yes, how can I help?" := by
  refine ⟨by decide, by decide, by decide, by decide, by decide⟩

/-- C6 amended: the request of the greeting scenario on a fresh
conversation A yields scam_detected false with risk_score BENIGN, and the
agent reply is the first scripted English authority_trap line. -/
theorem c6_amended_scenario
    (extract_authority llmImpersonation : String → Option String)
    (llmReply : List HistoryMessage → String → String)
    (extract_intel : String → List String × List String)
    (store : String → List HistoryMessage)
    (hfresh : store "A" = []) :
    (honeypot_endpoint_logic extract_authority llmImpersonation llmReply
        extract_intel store greetingRequest).1.scam_detected = false ∧
    (honeypot_endpoint_logic extract_authority llmImpersonation llmReply
        extract_intel store greetingRequest).1.risk_score = "BENIGN" ∧
    (honeypot_endpoint_logic extract_authority llmImpersonation llmReply
        extract_intel store greetingRequest).1.agent_reply =
      some "Which branch are you calling from?" := by
  have hstore : append_message store "A" "scammer"
      "Hello sir, I am calling from State Bank" "A" =
        [⟨"scammer", "Hello sir, I am calling from State Bank"⟩] := by
    simp [append_message, hfresh, MAX_HISTORY]
  refine ⟨?_, ?_, ?_⟩
  · show (policy_gate
        (hard_signal_scan "Hello sir, I am calling from State Bank")
        (soft_signal_placeholder "Hello sir, I am calling from State Bank")
        []).scam = false
    decide
  · show (policy_gate
        (hard_signal_scan "Hello sir, I am calling from State Bank")
        (soft_signal_placeholder "Hello sir, I am calling from State Bank")
        []).risk = "BENIGN"
    decide
  · show some (generate_agent_reply llmReply
        (append_message store "A" "scammer"
          "Hello sir, I am calling from State Bank" "A")) =
      some "Which branch are you calling from?"
    rw [hstore]
    rfl

/-- C6 amended witness: the amended scenario instantiated at the empty
store. -/
theorem c6_amended_witness :
    (honeypot_endpoint_logic noAuthority noImpersonation cannedLlmReply
        noIntel emptyStore greetingRequest).1.scam_detected = false ∧
    (honeypot_endpoint_logic noAuthority noImpersonation cannedLlmReply
        noIntel emptyStore greetingRequest).1.risk_score = "BENIGN" ∧
    (honeypot_endpoint_logic noAuthority noImpersonation cannedLlmReply
        noIntel emptyStore greetingRequest).1.agent_reply =
      some "Which branch are you calling from?" :=
  c6_amended_scenario noAuthority noImpersonation cannedLlmReply noIntel
    emptyStore rfl

/-- C7 counterexample: on the text with four Devanagari letters and one
Latin letter the Devanagari fraction is exactly 4/5, which satisfies the
claimed hinglish condition 0.1 < fraction AND fraction at most 0.8 with no
marker hit, yet detect_language returns english because the code uses the
strict comparison fraction < 0.8. -/
theorem c7_counterexample :
    hindiFraction "कखगघ z" = mkRat 4 5 ∧
    mkRat 1 10 < hindiFraction "कखगघ z" ∧
    total_chars "कखगघ z" ≠ 0 ∧
    hinglish_count "कखगघ z" = 0 ∧
    detect_language "कखगघ z" = "english" := by
  refine ⟨by decide, by decide, by decide, by decide, by decide⟩

/-- C7 amended: language detection as implemented — english when no
Devanagari or Latin letters are present; hindi when the Devanagari
fraction strictly exceeds 4/5; otherwise hinglish exactly when some
tokenised word is a Hinglish marker or the fraction lies strictly between
1/10 and 4/5 (strict at 4/5, where the claim said at most 4/5); english
in every remaining case. -/
theorem c7_detect_language_cases (t : String) :
    (total_chars t = 0 → detect_language t = "english") ∧
    (hindiFraction t > mkRat 4 5 → detect_language t = "hindi") ∧
    (total_chars t ≠ 0 → ¬ hindiFraction t > mkRat 4 5 →
      (detect_language t = "hinglish" ↔
        (0 < hinglish_count t ∨
          (mkRat 1 10 < hindiFraction t ∧ hindiFraction t < mkRat 4 5)))) ∧
    (total_chars t ≠ 0 → ¬ hindiFraction t > mkRat 4 5 →
      ¬ (0 < hinglish_count t ∨
          (mkRat 1 10 < hindiFraction t ∧ hindiFraction t < mkRat 4 5)) →
      detect_language t = "english") := by
  refine ⟨?_, ?_, ?_, ?_⟩
  · intro h
    simp [detect_language, h]
  · intro h
    have ht : total_chars t ≠ 0 := by
      intro h0
      rw [hindiFraction, h0] at h
      simp [mkRat] at h
      exact absurd h (by decide)
    have hb : (total_chars t == 0) = false := by
      simpa using ht
    simp [detect_language, hb, h]
  · intro ht hfr
    have hb : (total_chars t == 0) = false := by simpa using ht
    by_cases hc : 0 < hinglish_count t ∨
        (mkRat 1 10 < hindiFraction t ∧ hindiFraction t < mkRat 4 5)
    · have hcb : (decide (0 < hinglish_count t)
          || (decide (hindiFraction t > mkRat 1 10)
              && decide (hindiFraction t < mkRat 4 5))) = true := by
        rcases hc with hc1 | ⟨hc2, hc3⟩
        · simp [hc1]
        · simp [hc2, hc3]
      simp [detect_language, hb, hfr, hcb, hc]
    · have hcb : (decide (0 < hinglish_count t)
          || (decide (hindiFraction t > mkRat 1 10)
              && decide (hindiFraction t < mkRat 4 5))) = false := by
        push_neg at hc
        obtain ⟨hc1, hc2⟩ := hc
        by_cases h2 : mkRat 1 10 < hindiFraction t
        · simp [hc1, h2, hc2 h2]
        · simp [hc1, h2]
      simp [detect_language, hb, hfr, hcb, hc]
  · intro ht hfr hc
    have hb : (total_chars t == 0) = false := by simpa using ht
    have hcb : (decide (0 < hinglish_count t)
        || (decide (hindiFraction t > mkRat 1 10)
            && decide (hindiFraction t < mkRat 4 5))) = false := by
      push_neg at hc
      obtain ⟨hc1, hc2⟩ := hc
      by_cases h2 : mkRat 1 10 < hindiFraction t
      · simp [hc1, h2, hc2 h2]
      · simp [hc1, h2]
    simp [detect_language, hb, hfr, hcb]

/-- C7 witness: a pure-Devanagari greeting has fraction above 4/5 and is
detected as hindi via the amended characterisation. -/
theorem c7_witness :
    hindiFraction "नमस्ते" > mkRat 4 5 ∧
    detect_language "नमस्ते" = "hindi" :=
  ⟨by decide, (c7_detect_language_cases "नमस्ते").2.1 (by decide)⟩

/-- C8 counterexample: the empty history has fewer than two agent turns,
yet generate_agent_reply returns the hard-coded greeting Hello? which
appears nowhere in the MANUAL_RESPONSES table, so the claim fails as
stated for histories without a scammer message. -/
theorem c8_counterexample :
    (([] : List HistoryMessage).filter
      (fun m => m.role == "agent")).length < 2 ∧
    generate_agent_reply cannedLlmReply [] = "Hello?" ∧
    allManualReplies.contains "Hello?" = false := by
  refine ⟨by decide, by decide, by decide⟩

/-- C8 amended: whenever the history contains a scammer message whose
stripped text is non-empty and fewer than two agent turns, the reply is
drawn from the MANUAL_RESPONSES entry for the detected intent and
language of the latest scammer message, at index agent-count modulo the
length of that reply list, independent of the LLM oracle. -/
theorem c8_scripted_reply (llmReply : List HistoryMessage → String → String)
    (history : List HistoryMessage) (m0 : HistoryMessage)
    (hfind : history.reverse.find? (fun m => m.role == "scammer") = some m0)
    (hmsg : pyStrip m0.message ≠ "")
    (hcount : (history.filter (fun m => m.role == "agent")).length < 2) :
    generate_agent_reply llmReply history =
      (let msg := pyStrip m0.message
       let intent_responses :=
         (MANUAL_RESPONSES.lookup (detect_intent msg)).getD
           ((MANUAL_RESPONSES.lookup "unknown").getD [])
       let lang_responses :=
         (intent_responses.lookup (detect_language msg)).getD
           ((intent_responses.lookup "english").getD ["I see"])
       lang_responses.getD
         ((history.filter (fun m => m.role == "agent")).length %
           lang_responses.length) "") := by
  have hne : history ≠ [] := by
    intro h0
    rw [h0] at hfind
    simp at hfind
  have hisEmpty : history.isEmpty = false := by
    cases history with
    | nil => exact absurd rfl hne
    | cons a t => rfl
  have hstrip : (pyStrip m0.message).isEmpty = false := by
    cases he : (pyStrip m0.message).isEmpty
    · rfl
    · exact absurd ((String.isEmpty_iff _).mp he) hmsg
  have hstrat : response_strategy
      (detect_intent (pyStrip m0.message))
      ((history.filter (fun m => m.role == "agent")).length) = "manual" := by
    simp [response_strategy, hcount]
  simp only [generate_agent_reply, hisEmpty, Bool.false_eq_true, if_false,
    hfind, Option.map_some', hstrip, hstrat, beq_self_eq_true, if_true]

/-- C8 witness: a single scammer turn asking for an OTP receives the
first English credential_trap script. -/
theorem c8_scripted_reply_witness :
    generate_agent_reply cannedLlmReply
      [⟨"scammer", "we need your otp"⟩] = "I didn\x27t receive any code yet" :=
  (c8_scripted_reply cannedLlmReply [⟨"scammer", "we need your otp"⟩]
    ⟨"scammer", "we need your otp"⟩ (by decide) (by decide)
    (by decide)).trans (by decide)

/-- C9: in extract_psychological_tactics every boolean is true exactly
when its phrase list is non-empty, and urgency_intensity is high, medium,
low or none exactly when the number of urgency-lexicon substrings found
in the lowercased text is at least 3, exactly 2, exactly 1 or 0. -/
theorem c9_psychological_extraction (t : String) :
    ((extract_psychological_tactics t).urgency_present = true ↔
      (extract_psychological_tactics t).urgency_phrases ≠ []) ∧
    ((extract_psychological_tactics t).authority_claimed = true ↔
      (extract_psychological_tactics t).authority_entities ≠ []) ∧
    ((extract_psychological_tactics t).fear_tactics_present = true ↔
      (extract_psychological_tactics t).fear_phrases ≠ []) ∧
    ((extract_psychological_tactics t).reward_baiting = true ↔
      (extract_psychological_tactics t).reward_phrases ≠ []) ∧
    ((extract_psychological_tactics t).verification_requested = true ↔
      (extract_psychological_tactics t).verification_phrases ≠ []) ∧
    ((extract_psychological_tactics t).urgency_intensity = "high" ↔
      3 ≤ (URGENCY_INDICATORS.filter (fun w => pyIn w (pyLower t))).length) ∧
    ((extract_psychological_tactics t).urgency_intensity = "medium" ↔
      (URGENCY_INDICATORS.filter (fun w => pyIn w (pyLower t))).length = 2) ∧
    ((extract_psychological_tactics t).urgency_intensity = "low" ↔
      (URGENCY_INDICATORS.filter (fun w => pyIn w (pyLower t))).length = 1) ∧
    ((extract_psychological_tactics t).urgency_intensity = "none" ↔
      (URGENCY_INDICATORS.filter (fun w => pyIn w (pyLower t))).length = 0) := by
  have hint := urgency_intensity_cases
    (URGENCY_INDICATORS.filter (fun w => pyIn w (pyLower t)))
  refine ⟨?_, ?_, ?_, ?_, ?_, ?_, ?_, ?_, ?_⟩
  · simp [extract_psychological_tactics]
  · simp [extract_psychological_tactics]
  · simp [extract_psychological_tactics]
  · simp [extract_psychological_tactics]
  · simp [extract_psychological_tactics]
  · exact hint.1
  · exact hint.2.1
  · exact hint.2.2.1
  · exact hint.2.2.2

/-- C10: main.py invokes validate_authority_claim with one argument while
the validator requires two, so the modelled call raises TypeError on
every request; the handler substitutes the empty dict, and the response
explanation.validation is always the empty mapping instead of the
populated validation record. -/
theorem c10_validation_always_empty
    (extract_authority llmImpersonation : String → Option String)
    (llmReply : List HistoryMessage → String → String)
    (extract_intel : String → List String × List String)
    (store : String → List HistoryMessage)
    (req : HoneypotRequest) :
    authority_validation_call llmImpersonation
      (extract_authority req.message) req.message =
        PyResult.exc "TypeError" ∧
    (honeypot_endpoint_logic extract_authority llmImpersonation llmReply
      extract_intel store req).1.explanation.validation = [] :=
  ⟨rfl, rfl⟩
